import Mathlib

/-!
A shallow embedding of the record decoding layer of the Dove's Guide reader:
the per-field decoders (presence flags, affiliation sets, semicolon lists,
weights, optional notes), the Display rendering of notes, and the
schema-level record assembler derived from the deserialization of the
closed-field Ring struct, together with theorems about their behaviour.

Rust strings are modelled as Lean strings (lists of characters), machine
integers as naturals, and f64 field values as rationals (the decoders only
wrap parsed numbers; no floating-point arithmetic is performed).  Fallible
decoding is modelled with Except over an inductive error type whose
constructors follow the error kinds of the specification.
-/

deriving instance DecidableEq for Except

namespace Doves

/-- Errors that the decoding layer can report for a single field. -/
inductive DecodeError where
  | UnknownField : String → DecodeError
  | MissingField : String → DecodeError
  | DuplicateField : String → DecodeError
  | InvalidNumber : DecodeError
  | InvalidNoteName : Char → DecodeError
  | InvalidAccidental : Char → DecodeError
  | UnknownAffiliation : String → DecodeError
  | UnknownVariant : String → String → DecodeError
  deriving DecidableEq

/-- The possible types of a ring documented in the guide (source: RingType). -/
inductive RingType where
  | FullCircle
  | Carillon
  deriving DecidableEq

/-- Details about a ring; the source only documents the tags P and C
(source: Details). -/
inductive Details where
  | P
  | C
  deriving DecidableEq

/-- An organisation to which a tower can be affiliated (source: Affiliation,
with the canonical codes given in its doc comments). -/
inductive Affiliation where
  | CambridgeUni
  | ManchesterUni
  | OxfordUni
  | OxfordDiocese
  | Surrey
  deriving DecidableEq

/-- The weight of the heaviest bell, in pounds (source: Weight). -/
structure Weight where
  lbs : ℚ
  deriving DecidableEq

/-- The name of a root note, A to G (source: NoteName). -/
inductive NoteName where
  | A
  | B
  | C
  | D
  | E
  | F
  | G
  deriving DecidableEq

/-- An accidental applied to a note name (source: Accidental). -/
inductive Accidental where
  | Flat
  | Natural
  | Sharp
  deriving DecidableEq

/-- A note: a root name together with an accidental (source: Note). -/
structure Note where
  name : NoteName
  accidental : Accidental
  deriving DecidableEq

/-- Rendering of a note name, as in the Display impl for NoteName, which
prints the Debug name of the variant. -/
def NoteName.fmt : NoteName → String
  | .A => "A"
  | .B => "B"
  | .C => "C"
  | .D => "D"
  | .E => "E"
  | .F => "F"
  | .G => "G"

/-- Rendering of an accidental, as in the Display impl for Accidental:
natural renders as nothing, flat as the FLAT glyph and sharp as the SHARP
glyph. -/
def Accidental.fmt : Accidental → String
  | .Flat => "♭"
  | .Natural => ""
  | .Sharp => "♯"

/-- Rendering of a note, as in the Display impl for Note: the name followed
by the accidental. -/
def Note.fmt (n : Note) : String :=
  n.name.fmt ++ n.accidental.fmt

/-- Embedding of deser_not_empty.  The source maps the raw string through
str::is_empty with no negation, despite its own doc comment saying that the
result is false exactly for the empty string. -/
def deser_not_empty (s : String) : Except DecodeError Bool :=
  .ok s.isEmpty

/-- Embedding of the char-by-char semantics of str::split with the separator
set to the semicolon character, as used by deser_semicolon_list: the empty
input produces one empty segment, and every separator starts a new segment. -/
def splitSemiChars : List Char → List (List Char)
  | [] => [[]]
  | c :: rest =>
    if c = ';' then [] :: splitSemiChars rest
    else
      match splitSemiChars rest with
      | [] => [[c]]
      | s :: ss => (c :: s) :: ss

/-- Joining with the semicolon separator: the specification-side inverse of a
literal split operation. -/
def joinSemi : List (List Char) → List Char
  | [] => []
  | [s] => s
  | s :: ss => s ++ ';' :: joinSemi ss

/-- Embedding of deser_semicolon_list: split the raw string on semicolons and
keep every (possibly empty) segment, in order. -/
def deser_semicolon_list (s : String) : Except DecodeError (List String) :=
  .ok ((splitSemiChars s.data).map (fun l => String.mk l))

/-- The note name selected by the first character of a pitch field, as in the
first match of deser_option_note: exactly the uppercase letters A to G. -/
def noteNameOfChar (c : Char) : Option NoteName :=
  if c = 'A' then some .A
  else if c = 'B' then some .B
  else if c = 'C' then some .C
  else if c = 'D' then some .D
  else if c = 'E' then some .E
  else if c = 'F' then some .F
  else if c = 'G' then some .G
  else none

/-- The accidental selected by the second character of a pitch field (or its
absence), as in the second match of deser_option_note. -/
def accidentalOfSecond : Option Char → Except DecodeError Accidental
  | none => .ok .Natural
  | some c =>
    if c = '♭' ∨ c = 'b' then .ok .Flat
    else if c = '♮' then .ok .Natural
    else if c = '♯' ∨ c = '#' then .ok .Sharp
    else .error (.InvalidAccidental c)

/-- Embedding of deser_option_note: the empty string decodes to none; the
first character selects the note name (or fails), the second character, if
any, selects the accidental (or fails); all later characters are ignored. -/
def deser_option_note (s : String) : Except DecodeError (Option Note) :=
  match s.data with
  | [] => .ok none
  | c :: rest =>
    match noteNameOfChar c with
    | none => .error (.InvalidNoteName c)
    | some name =>
      match accidentalOfSecond rest.head? with
      | .error e => .error e
      | .ok accidental => .ok (some { name := name, accidental := accidental })

/-- The numeric value of a decimal digit character, none for any other
character. -/
def digitVal (c : Char) : Option ℕ :=
  if c.isDigit then some (c.toNat - 48) else none

/-- Parse a non-empty run of decimal digits into a natural number. -/
def parseDigits (l : List Char) : Option ℕ :=
  if l.isEmpty then none
  else
    l.foldl
      (fun acc c =>
        match acc, digitVal c with
        | some a, some d => some (10 * a + d)
        | _, _ => none)
      (some 0)

/-- Modelled from the spec: the upstream floating-point field parsing
(performed by the serde/csv layer, outside this crate) for an unsigned
decimal number with an optional fractional part. -/
def parseUnsigned (l : List Char) : Option ℚ :=
  match l.span (fun c => c != '.') with
  | (intPart, []) => (parseDigits intPart).map (fun n => mkRat (Int.ofNat n) 1)
  | (intPart, _ :: fracPart) =>
    if fracPart.contains '.' then none
    else
      match parseDigits intPart, parseDigits fracPart with
      | some i, some f =>
        some (mkRat (Int.ofNat (i * 10 ^ fracPart.length + f)) (10 ^ fracPart.length))
      | _, _ => none

/-- Modelled from the spec: the upstream floating-point field parsing with an
optional leading sign.  Negative values are accepted, matching the documented
looseness of the weight decoder. -/
def parseFloat (s : String) : Option ℚ :=
  match s.data with
  | '-' :: rest => (parseUnsigned rest).map (fun q => -q)
  | '+' :: rest => parseUnsigned rest
  | l => parseUnsigned l

/-- Modelled from the spec: a numeric field that is present but not parseable
as a floating-point number is an InvalidNumber error. -/
def decodeFloat (s : String) : Except DecodeError ℚ :=
  match parseFloat s with
  | some q => .ok q
  | none => .error .InvalidNumber

/-- Embedding of deser_weight: parse the field as a number and wrap it as a
weight in pounds; the parse failure is the InvalidNumber error. -/
def deser_weight (s : String) : Except DecodeError Weight :=
  (decodeFloat s).map (fun lbs => Weight.mk lbs)

/-- Modelled from the spec: the upstream unsigned-integer field parsing
(serde/csv layer, outside this crate) for the usize fields of the record. -/
def decodeNat (s : String) : Except DecodeError ℕ :=
  match parseDigits s.data with
  | some n => .ok n
  | none => .error .InvalidNumber

/-- Modelled from the spec: optional fields decode to an absent value on the
empty raw field, as done by the upstream csv layer for Option targets. -/
def decodeOptStr (s : String) : Except DecodeError (Option String) :=
  if s = "" then .ok none else .ok (some s)

/-- Modelled from the spec: an optional numeric field is absent when empty
and otherwise parsed as a floating-point number. -/
def decodeOptFloat (s : String) : Except DecodeError (Option ℚ) :=
  if s = "" then .ok none else (decodeFloat s).map some

/-- Modelled from the spec: an optional unsigned-integer field is absent when
empty and otherwise parsed as an unsigned integer. -/
def decodeOptNat (s : String) : Except DecodeError (Option ℕ) :=
  if s = "" then .ok none else (decodeNat s).map some

/-- Plain string fields decode by passthrough. -/
def decodeStr (s : String) : Except DecodeError String :=
  .ok s

/-- Embedding of the RingType deserialization: an exact match against the two
renamed tags of the enum, any other value being an unknown variant. -/
def decodeRingType (s : String) : Except DecodeError RingType :=
  if s = "Full circle ring" then .ok .FullCircle
  else if s = "Carillon" then .ok .Carillon
  else .error (.UnknownVariant ("RingType") s)

/-- Embedding of the Details deserialization: an exact match against the tags
P and C, any other value being an unknown variant. -/
def decodeDetails (s : String) : Except DecodeError Details :=
  if s = "P" then .ok .P
  else if s = "C" then .ok .C
  else .error (.UnknownVariant ("Details") s)

/-- Modelled from the spec: the closed vocabulary table mapping canonical
organisation codes to Affiliation variants.  The body of deser_affiliations
is missing from the source (left as a todo), so the lookup follows the codes
documented on the Affiliation variants. -/
def affFromCode (s : String) : Option Affiliation :=
  if s = "CUG" then some .CambridgeUni
  else if s = "MUG" then some .ManchesterUni
  else if s = "OUS" then some .OxfordUni
  else if s = "ODG" then some .OxfordDiocese
  else if s = "Surr" then some .Surrey
  else none

/-- Modelled from the spec: decode a list of organisation codes, collecting
the corresponding variants into a set; an unknown code is a decode error. -/
def decodeAffList : List String → Except DecodeError (Finset Affiliation)
  | [] => .ok ∅
  | c :: rest =>
    match affFromCode c with
    | none => .error (.UnknownAffiliation c)
    | some a => (decodeAffList rest).map (fun s => insert a s)

/-- The set of affiliations named by a list of codes, ignoring unknown codes;
used to state what a successful decode returns. -/
def affSetOf : List String → Finset Affiliation
  | [] => ∅
  | c :: rest =>
    match affFromCode c with
    | some a => insert a (affSetOf rest)
    | none => affSetOf rest

/-- Modelled from the spec: deser_affiliations splits the raw field on
semicolons and looks every code up in the closed vocabulary; the empty input
yields the empty set rather than an error.  The body of deser_affiliations is
missing from the source (left as a todo). -/
def deser_affiliations (s : String) : Except DecodeError (Finset Affiliation) :=
  if s = "" then .ok ∅
  else decodeAffList ((splitSemiChars s.data).map (fun l => String.mk l))

/-- A ring of bells: the fully decoded record (source: Ring), with the fields
in declaration order. -/
structure Ring where
  id : ℕ
  ring_type : RingType
  bells : ℕ
  unringable : Bool
  ground_floor : Bool
  toilet : Bool
  simulator : Bool
  affiliations : Finset Affiliation
  practice : Option String
  towerbase_id : ℕ
  dove_id : Option String
  weight : Weight
  note : Option Note
  freq : Option ℚ
  details : Details
  extra_info : List String
  url : Option String
  semitones : Option String
  app : Bool
  place : String
  place2 : Option String
  place_county_list : Option String
  county : Option String
  country : Option String
  iso_3166_code : Option String
  os_grid_ref : Option String
  postcode : Option String
  long : Option ℚ
  lat : Option ℚ
  satnav_long : Option ℚ
  satnav_lat : Option ℚ
  overhaul_year : Option ℕ
  contractor : Option String
  tune_year : Option ℕ
  building_id : Option ℕ
  building_grade : Option String
  church_care : Option ℕ
  dedication : String
  alt_name : Option String
  diocese : Option String
  deriving DecidableEq

/-- The state of record assembly while the raw entries are being visited:
every field starts unset. -/
structure PartialRing where
  id : Option ℕ := none
  ring_type : Option RingType := none
  bells : Option ℕ := none
  unringable : Option Bool := none
  ground_floor : Option Bool := none
  toilet : Option Bool := none
  simulator : Option Bool := none
  affiliations : Option (Finset Affiliation) := none
  practice : Option (Option String) := none
  towerbase_id : Option ℕ := none
  dove_id : Option (Option String) := none
  weight : Option Weight := none
  note : Option (Option Note) := none
  freq : Option (Option ℚ) := none
  details : Option Details := none
  extra_info : Option (List String) := none
  url : Option (Option String) := none
  semitones : Option (Option String) := none
  app : Option Bool := none
  place : Option String := none
  place2 : Option (Option String) := none
  place_county_list : Option (Option String) := none
  county : Option (Option String) := none
  country : Option (Option String) := none
  iso_3166_code : Option (Option String) := none
  os_grid_ref : Option (Option String) := none
  postcode : Option (Option String) := none
  long : Option (Option ℚ) := none
  lat : Option (Option ℚ) := none
  satnav_long : Option (Option ℚ) := none
  satnav_lat : Option (Option ℚ) := none
  overhaul_year : Option (Option ℕ) := none
  contractor : Option (Option String) := none
  tune_year : Option (Option ℕ) := none
  building_id : Option (Option ℕ) := none
  building_grade : Option (Option String) := none
  church_care : Option (Option ℕ) := none
  dedication : Option String := none
  alt_name : Option (Option String) := none
  diocese : Option (Option String) := none
  deriving DecidableEq

/-- The closed schema: the renamed header names of the fields of Ring, in
declaration order. -/
def schemaFields : List String :=
  ["TowerID", "RingType", "Bells", "UR", "GF", "Toilet", "Simulator",
   "Affiliations", "Practice", "TowerBase", "DoveID", "Wt", "Note", "Hz",
   "Details", "ExtraInfo", "WebPage", "Semitones", "App", "Place", "Place2",
   "PlaceCL", "County", "Country", "ISO3166code", "NG", "Postcode", "Long",
   "Lat", "SNLong", "SNLat", "OvhaulYr", "Contractor", "TuneYr", "BldgID",
   "LGrade", "ChurchCare", "Dedicn", "AltName", "Diocese"]

/-- Process one raw entry during record assembly, as the derived map visitor
does: an unrecognized name is an unknown-field error (the schema denies
unknown fields), a repeated name is a duplicate-field error, and otherwise
the value is routed to the designated decoder for the field, whose failure
aborts the assembly. -/
def processField (st : PartialRing) (name value : String) :
    Except DecodeError PartialRing :=
  if name = "TowerID" then
    if st.id.isSome then .error (.DuplicateField name)
    else (decodeNat value).map (fun v => { st with id := some v })
  else if name = "RingType" then
    if st.ring_type.isSome then .error (.DuplicateField name)
    else (decodeRingType value).map (fun v => { st with ring_type := some v })
  else if name = "Bells" then
    if st.bells.isSome then .error (.DuplicateField name)
    else (decodeNat value).map (fun v => { st with bells := some v })
  else if name = "UR" then
    if st.unringable.isSome then .error (.DuplicateField name)
    else (deser_not_empty value).map (fun v => { st with unringable := some v })
  else if name = "GF" then
    if st.ground_floor.isSome then .error (.DuplicateField name)
    else (deser_not_empty value).map (fun v => { st with ground_floor := some v })
  else if name = "Toilet" then
    if st.toilet.isSome then .error (.DuplicateField name)
    else (deser_not_empty value).map (fun v => { st with toilet := some v })
  else if name = "Simulator" then
    if st.simulator.isSome then .error (.DuplicateField name)
    else (deser_not_empty value).map (fun v => { st with simulator := some v })
  else if name = "Affiliations" then
    if st.affiliations.isSome then .error (.DuplicateField name)
    else (deser_affiliations value).map (fun v => { st with affiliations := some v })
  else if name = "Practice" then
    if st.practice.isSome then .error (.DuplicateField name)
    else (decodeOptStr value).map (fun v => { st with practice := some v })
  else if name = "TowerBase" then
    if st.towerbase_id.isSome then .error (.DuplicateField name)
    else (decodeNat value).map (fun v => { st with towerbase_id := some v })
  else if name = "DoveID" then
    if st.dove_id.isSome then .error (.DuplicateField name)
    else (decodeOptStr value).map (fun v => { st with dove_id := some v })
  else if name = "Wt" then
    if st.weight.isSome then .error (.DuplicateField name)
    else (deser_weight value).map (fun v => { st with weight := some v })
  else if name = "Note" then
    if st.note.isSome then .error (.DuplicateField name)
    else (deser_option_note value).map (fun v => { st with note := some v })
  else if name = "Hz" then
    if st.freq.isSome then .error (.DuplicateField name)
    else (decodeOptFloat value).map (fun v => { st with freq := some v })
  else if name = "Details" then
    if st.details.isSome then .error (.DuplicateField name)
    else (decodeDetails value).map (fun v => { st with details := some v })
  else if name = "ExtraInfo" then
    if st.extra_info.isSome then .error (.DuplicateField name)
    else (deser_semicolon_list value).map (fun v => { st with extra_info := some v })
  else if name = "WebPage" then
    if st.url.isSome then .error (.DuplicateField name)
    else (decodeOptStr value).map (fun v => { st with url := some v })
  else if name = "Semitones" then
    if st.semitones.isSome then .error (.DuplicateField name)
    else (decodeOptStr value).map (fun v => { st with semitones := some v })
  else if name = "App" then
    if st.app.isSome then .error (.DuplicateField name)
    else (deser_not_empty value).map (fun v => { st with app := some v })
  else if name = "Place" then
    if st.place.isSome then .error (.DuplicateField name)
    else (decodeStr value).map (fun v => { st with place := some v })
  else if name = "Place2" then
    if st.place2.isSome then .error (.DuplicateField name)
    else (decodeOptStr value).map (fun v => { st with place2 := some v })
  else if name = "PlaceCL" then
    if st.place_county_list.isSome then .error (.DuplicateField name)
    else (decodeOptStr value).map (fun v => { st with place_county_list := some v })
  else if name = "County" then
    if st.county.isSome then .error (.DuplicateField name)
    else (decodeOptStr value).map (fun v => { st with county := some v })
  else if name = "Country" then
    if st.country.isSome then .error (.DuplicateField name)
    else (decodeOptStr value).map (fun v => { st with country := some v })
  else if name = "ISO3166code" then
    if st.iso_3166_code.isSome then .error (.DuplicateField name)
    else (decodeOptStr value).map (fun v => { st with iso_3166_code := some v })
  else if name = "NG" then
    if st.os_grid_ref.isSome then .error (.DuplicateField name)
    else (decodeOptStr value).map (fun v => { st with os_grid_ref := some v })
  else if name = "Postcode" then
    if st.postcode.isSome then .error (.DuplicateField name)
    else (decodeOptStr value).map (fun v => { st with postcode := some v })
  else if name = "Long" then
    if st.long.isSome then .error (.DuplicateField name)
    else (decodeOptFloat value).map (fun v => { st with long := some v })
  else if name = "Lat" then
    if st.lat.isSome then .error (.DuplicateField name)
    else (decodeOptFloat value).map (fun v => { st with lat := some v })
  else if name = "SNLong" then
    if st.satnav_long.isSome then .error (.DuplicateField name)
    else (decodeOptFloat value).map (fun v => { st with satnav_long := some v })
  else if name = "SNLat" then
    if st.satnav_lat.isSome then .error (.DuplicateField name)
    else (decodeOptFloat value).map (fun v => { st with satnav_lat := some v })
  else if name = "OvhaulYr" then
    if st.overhaul_year.isSome then .error (.DuplicateField name)
    else (decodeOptNat value).map (fun v => { st with overhaul_year := some v })
  else if name = "Contractor" then
    if st.contractor.isSome then .error (.DuplicateField name)
    else (decodeOptStr value).map (fun v => { st with contractor := some v })
  else if name = "TuneYr" then
    if st.tune_year.isSome then .error (.DuplicateField name)
    else (decodeOptNat value).map (fun v => { st with tune_year := some v })
  else if name = "BldgID" then
    if st.building_id.isSome then .error (.DuplicateField name)
    else (decodeOptNat value).map (fun v => { st with building_id := some v })
  else if name = "LGrade" then
    if st.building_grade.isSome then .error (.DuplicateField name)
    else (decodeOptStr value).map (fun v => { st with building_grade := some v })
  else if name = "ChurchCare" then
    if st.church_care.isSome then .error (.DuplicateField name)
    else (decodeOptNat value).map (fun v => { st with church_care := some v })
  else if name = "Dedicn" then
    if st.dedication.isSome then .error (.DuplicateField name)
    else (decodeStr value).map (fun v => { st with dedication := some v })
  else if name = "AltName" then
    if st.alt_name.isSome then .error (.DuplicateField name)
    else (decodeOptStr value).map (fun v => { st with alt_name := some v })
  else if name = "Diocese" then
    if st.diocese.isSome then .error (.DuplicateField name)
    else (decodeOptStr value).map (fun v => { st with diocese := some v })
  else .error (.UnknownField name)

/-- A mandatory field must have been set during assembly; its absence is a
missing-field error. -/
def requiredField {α : Type} (name : String) : Option α → Except DecodeError α
  | some v => .ok v
  | none => .error (.MissingField name)

/-- Finish record assembly after all raw entries have been visited, as the
derived visitor does: mandatory fields are checked in declaration order and
optional fields default to an absent value.  The pitch field is mandatory
despite its Option target: its custom decoder disables the missing-field
default, so an absent pitch key is a missing-field error. -/
def finishRing (st : PartialRing) : Except DecodeError Ring := do
  let id ← requiredField ("TowerID") st.id
  let ring_type ← requiredField ("RingType") st.ring_type
  let bells ← requiredField ("Bells") st.bells
  let unringable ← requiredField ("UR") st.unringable
  let ground_floor ← requiredField ("GF") st.ground_floor
  let toilet ← requiredField ("Toilet") st.toilet
  let simulator ← requiredField ("Simulator") st.simulator
  let affiliations ← requiredField ("Affiliations") st.affiliations
  let towerbase_id ← requiredField ("TowerBase") st.towerbase_id
  let weight ← requiredField ("Wt") st.weight
  let note ← requiredField ("Note") st.note
  let details ← requiredField ("Details") st.details
  let extra_info ← requiredField ("ExtraInfo") st.extra_info
  let app ← requiredField ("App") st.app
  let place ← requiredField ("Place") st.place
  let dedication ← requiredField ("Dedicn") st.dedication
  pure
    { id := id
      ring_type := ring_type
      bells := bells
      unringable := unringable
      ground_floor := ground_floor
      toilet := toilet
      simulator := simulator
      affiliations := affiliations
      practice := st.practice.getD none
      towerbase_id := towerbase_id
      dove_id := st.dove_id.getD none
      weight := weight
      note := note
      freq := st.freq.getD none
      details := details
      extra_info := extra_info
      url := st.url.getD none
      semitones := st.semitones.getD none
      app := app
      place := place
      place2 := st.place2.getD none
      place_county_list := st.place_county_list.getD none
      county := st.county.getD none
      country := st.country.getD none
      iso_3166_code := st.iso_3166_code.getD none
      os_grid_ref := st.os_grid_ref.getD none
      postcode := st.postcode.getD none
      long := st.long.getD none
      lat := st.lat.getD none
      satnav_long := st.satnav_long.getD none
      satnav_lat := st.satnav_lat.getD none
      overhaul_year := st.overhaul_year.getD none
      contractor := st.contractor.getD none
      tune_year := st.tune_year.getD none
      building_id := st.building_id.getD none
      building_grade := st.building_grade.getD none
      church_care := st.church_care.getD none
      dedication := dedication
      alt_name := st.alt_name.getD none
      diocese := st.diocese.getD none }

/-- Visit the raw entries of one record in order, aborting at the first field
error, as the derived map visitor does. -/
def runFields : PartialRing → List (String × String) → Except DecodeError PartialRing
  | st, [] => .ok st
  | st, p :: rest =>
    match processField st p.1 p.2 with
    | .error e => .error e
    | .ok st2 => runFields st2 rest

/-- Assemble a record from its ordered raw entries: visit every entry, then
check mandatory fields and default the optional ones. -/
def assembleRing (entries : List (String × String)) : Except DecodeError Ring :=
  match runFields {} entries with
  | .error e => .error e
  | .ok st => finishRing st

/-- A raw record that is missing the mandatory tower identifier and carries
an unparseable optional frequency field. -/
def exMissingAndInvalid : List (String × String) :=
  [("Hz", "abc")]

/-- A raw record with an invalid weight field followed by a field name
outside the schema. -/
def exInvalidAndUnknown : List (String × String) :=
  [("Wt", "abc"), ("Bogus", "x")]

/-- A raw record carrying every mandatory field with a valid value except
the pitch field, which is absent. -/
def exAllButNote : List (String × String) :=
  [("TowerID", "1"), ("RingType", "Full circle ring"), ("Bells", "6"),
   ("UR", ""), ("GF", ""), ("Toilet", ""), ("Simulator", ""),
   ("Affiliations", ""), ("TowerBase", "2"), ("Wt", "500"), ("Details", "P"),
   ("ExtraInfo", ""), ("App", ""), ("Place", "X"), ("Dedicn", "Y")]

/-- The pitch field is mandatory: a record whose every other mandatory field
decodes successfully but whose pitch key is absent fails with the
missing-field error for the pitch field, checked after the weight field in
declaration order. -/
theorem assembleRing_requires_note :
    assembleRing exAllButNote = .error (.MissingField ("Note")) := by decide

/-- The split of a character list on semicolons is never the empty list of
segments. -/
theorem splitSemiChars_ne_nil (l : List Char) : splitSemiChars l ≠ [] := by
  cases l with
  | nil => simp [splitSemiChars]
  | cons c rest =>
    simp only [splitSemiChars]
    split_ifs
    · simp
    · cases h : splitSemiChars rest <;> simp [h]

/-- The split of a character list on semicolons always has a head segment. -/
theorem splitSemiChars_eq_cons (l : List Char) :
    ∃ s ss, splitSemiChars l = s :: ss := by
  cases h : splitSemiChars l with
  | nil => exact absurd h (splitSemiChars_ne_nil l)
  | cons s ss => exact ⟨s, ss, rfl⟩

/-- Joining distributes over a character consed onto the head segment. -/
theorem joinSemi_cons (c : Char) (t : List Char) (ss : List (List Char)) :
    joinSemi ((c :: t) :: ss) = c :: joinSemi (t :: ss) := by
  cases ss <;> rfl

/-- Joining the segments of a semicolon split with semicolons restores the
original character list: the split is a literal split. -/
theorem joinSemi_splitSemiChars (l : List Char) :
    joinSemi (splitSemiChars l) = l := by
  induction l with
  | nil => rfl
  | cons c rest ih =>
    obtain ⟨s, ss, hss⟩ := splitSemiChars_eq_cons rest
    rw [hss] at ih
    simp only [splitSemiChars]
    split_ifs with hc
    · subst hc
      rw [hss]
      rw [show joinSemi ([] :: s :: ss) = ';' :: joinSemi (s :: ss) from rfl, ih]
    · rw [hss, joinSemi_cons, ih]

/-- No segment produced by the semicolon split contains a semicolon. -/
theorem splitSemiChars_no_semi (l : List Char) :
    ∀ seg ∈ splitSemiChars l, ';' ∉ seg := by
  induction l with
  | nil =>
    intro seg hseg
    simp [splitSemiChars] at hseg
    subst hseg
    simp
  | cons c rest ih =>
    intro seg hseg
    obtain ⟨s, ss, hss⟩ := splitSemiChars_eq_cons rest
    simp only [splitSemiChars] at hseg
    split_ifs at hseg with hc
    · rcases List.mem_cons.mp hseg with h | h
      · subst h
        simp
      · exact ih seg h
    · rw [hss] at hseg
      rcases List.mem_cons.mp hseg with h | h
      · subst h
        intro hmem
        rcases List.mem_cons.mp hmem with h2 | h2
        · exact hc h2.symm
        · exact ih s (by rw [hss]; exact List.mem_cons_self s ss) h2
      · exact ih seg (by rw [hss]; exact List.mem_cons_of_mem s h)

/-- Membership in the affiliation set named by a list of codes is existence
of a code naming the member. -/
theorem mem_affSetOf (a : Affiliation) (l : List String) :
    a ∈ affSetOf l ↔ ∃ c ∈ l, affFromCode c = some a := by
  induction l with
  | nil => simp [affSetOf]
  | cons c rest ih =>
    simp only [affSetOf]
    cases h : affFromCode c with
    | none =>
      rw [ih]
      constructor
      · rintro ⟨d, hd, hda⟩
        exact ⟨d, List.mem_cons_of_mem c hd, hda⟩
      · rintro ⟨d, hd, hda⟩
        rcases List.mem_cons.mp hd with h2 | h2
        · subst h2
          rw [h] at hda
          exact Option.noConfusion hda
        · exact ⟨d, h2, hda⟩
    | some b =>
      rw [Finset.mem_insert, ih]
      constructor
      · rintro (rfl | ⟨d, hd, hda⟩)
        · exact ⟨c, List.mem_cons_self c rest, h⟩
        · exact ⟨d, List.mem_cons_of_mem c hd, hda⟩
      · rintro ⟨d, hd, hda⟩
        rcases List.mem_cons.mp hd with h2 | h2
        · subst h2
          rw [h] at hda
          exact Or.inl (Option.some.inj hda).symm
        · exact Or.inr ⟨d, h2, hda⟩

/-- When every code of a list is known, decoding the list succeeds and
returns exactly the set of affiliations named by the codes. -/
theorem decodeAffList_ok (l : List String)
    (h : ∀ c ∈ l, (affFromCode c).isSome = true) :
    decodeAffList l = .ok (affSetOf l) := by
  induction l with
  | nil => rfl
  | cons c rest ih =>
    obtain ⟨a, ha⟩ := Option.isSome_iff_exists.mp (h c (List.mem_cons_self c rest))
    have ih2 := ih (fun d hd => h d (List.mem_cons_of_mem c hd))
    simp [decodeAffList, affSetOf, ha, ih2, Except.map]

/-- A field name outside the closed schema is rejected as an unknown field,
whatever the assembly state and the raw value. -/
theorem processField_unknown (st : PartialRing) (name value : String)
    (h : name ∉ schemaFields) :
    processField st name value = .error (.UnknownField name) := by
  simp only [schemaFields, List.mem_cons, List.not_mem_nil, or_false, not_or] at h
  obtain ⟨h1, h2, h3, h4, h5, h6, h7, h8, h9, h10, h11, h12, h13, h14, h15,
    h16, h17, h18, h19, h20, h21, h22, h23, h24, h25, h26, h27, h28, h29, h30,
    h31, h32, h33, h34, h35, h36, h37, h38, h39, h40⟩ := h
  simp [processField, h1, h2, h3, h4, h5, h6, h7, h8, h9, h10, h11, h12, h13,
    h14, h15, h16, h17, h18, h19, h20, h21, h22, h23, h24, h25, h26, h27, h28,
    h29, h30, h31, h32, h33, h34, h35, h36, h37, h38, h39, h40]

/-- Visiting a concatenation of raw entries visits the first part and, if
that aborted, propagates its error. -/
theorem runFields_append (l1 l2 : List (String × String)) (st : PartialRing) :
    runFields st (l1 ++ l2) =
      match runFields st l1 with
      | .ok st2 => runFields st2 l2
      | .error e => .error e := by
  induction l1 generalizing st with
  | nil => rfl
  | cons p rest ih =>
    cases h : processField st p.1 p.2 with
    | error e => simp [runFields, h]
    | ok st2 => simp [runFields, h, ih st2]

/-- C1: the presence-flag decoder never returns an error, but contrary to the
claim (and to the decoder doc comment and field documentation in the source)
it returns true exactly when the raw string is empty: the empty string
decodes to true and the documented non-empty truthy value decodes to false. -/
theorem deser_not_empty_flags_empty_as_true :
    deser_not_empty "" = .ok true ∧
    deser_not_empty ("u/r") = .ok false ∧
    ∀ s : String, deser_not_empty s = .ok s.isEmpty :=
  ⟨rfl, rfl, fun _ => rfl⟩

/-- C2: affiliation decoding has set semantics: decoding lists of known codes
depends only on which codes occur (duplicates collapse, order is irrelevant);
in particular the codes CUG;CUG;ODG and ODG;CUG decode to the same
two-element set, and the empty input decodes to the empty set, not an
error. -/
theorem deser_affiliations_set_semantics :
    (∀ l1 : List String, (∀ c ∈ l1, (affFromCode c).isSome = true) →
      ∀ l2 : List String, (∀ c, c ∈ l1 ↔ c ∈ l2) →
        decodeAffList l1 = decodeAffList l2) ∧
    deser_affiliations ("CUG;CUG;ODG") = deser_affiliations ("ODG;CUG") ∧
    deser_affiliations ("ODG;CUG") =
      .ok (insert .OxfordDiocese (insert .CambridgeUni ∅)) ∧
    (insert Affiliation.OxfordDiocese
      (insert Affiliation.CambridgeUni ∅) : Finset Affiliation).card = 2 ∧
    deser_affiliations "" = .ok ∅ := by
  refine ⟨?_, ?_, rfl, ?_, rfl⟩
  · intro l1 h1 l2 hmem
    have h2 : ∀ c ∈ l2, (affFromCode c).isSome = true :=
      fun c hc => h1 c ((hmem c).mpr hc)
    rw [decodeAffList_ok l1 h1, decodeAffList_ok l2 h2]
    have hset : affSetOf l1 = affSetOf l2 := by
      apply Finset.ext
      intro a
      rw [mem_affSetOf, mem_affSetOf]
      constructor
      · rintro ⟨c, hc, hca⟩
        exact ⟨c, (hmem c).mp hc, hca⟩
      · rintro ⟨c, hc, hca⟩
        exact ⟨c, (hmem c).mpr hc, hca⟩
    rw [hset]
  · have e1 : deser_affiliations ("CUG;CUG;ODG") =
        .ok (insert .CambridgeUni (insert .CambridgeUni
          (insert .OxfordDiocese ∅))) := rfl
    have e2 : deser_affiliations ("ODG;CUG") =
        .ok (insert .OxfordDiocese (insert .CambridgeUni ∅)) := rfl
    rw [e1, e2]
    congr 1
    ext a
    cases a <;> simp
  · rw [Finset.card_insert_of_not_mem (by simp),
      Finset.card_insert_of_not_mem (by simp)]
    rfl

/-- Witness for C2: the set-semantics part of the theorem applied to the
concrete lists with and without a duplicated code. -/
theorem deser_affiliations_set_semantics_witness :
    decodeAffList ["CUG"] = decodeAffList ["CUG", "CUG"] :=
  deser_affiliations_set_semantics.1 ["CUG"] (by decide) ["CUG", "CUG"]
    (by intro c; simp)

/-- C3 counterexample: the raw record missing the mandatory tower identifier
and carrying an unparseable optional frequency field reports only the
invalid-field error; the missing-field error is not reported in the same
assembly attempt, so the attempt does not report both errors. -/
theorem assembly_single_error_counterexample :
    assembleRing exMissingAndInvalid = .error .InvalidNumber ∧
    ¬ ∃ n, assembleRing exMissingAndInvalid = .error (.MissingField n) := by
  have h : assembleRing exMissingAndInvalid = .error .InvalidNumber := by decide
  refine ⟨h, ?_⟩
  rintro ⟨n, hn⟩
  rw [h] at hn
  exact DecodeError.noConfusion (Except.error.inj hn)

/-- C3 (amended): record assembly short-circuits at the first per-field
decode failure and reports that single error; the missing-mandatory-field
check only runs after every present field has decoded, as the record with no
entries shows. -/
theorem assembly_first_error_reported :
    (∀ (pre : List (String × String)) (p : String × String)
        (post : List (String × String)) (st : PartialRing) (e : DecodeError),
      runFields {} pre = .ok st →
      processField st p.1 p.2 = .error e →
      assembleRing (pre ++ p :: post) = .error e) ∧
    assembleRing exMissingAndInvalid = .error .InvalidNumber ∧
    assembleRing [] = .error (.MissingField ("TowerID")) := by
  refine ⟨?_, by decide, by decide⟩
  intro pre p post st e h1 h2
  unfold assembleRing
  rw [runFields_append, h1]
  simp [runFields, h2]

/-- Witness for C3 (amended): the short-circuit theorem applied to the
record with an unparseable optional frequency field. -/
theorem assembly_first_error_reported_witness :
    assembleRing ([] ++ ("Hz", "abc") :: []) = .error .InvalidNumber :=
  assembly_first_error_reported.1 [] ("Hz", "abc") [] {} .InvalidNumber rfl
    (by decide)

/-- C4: the pitch decoder maps the empty string to none; a first character
outside A to G is an invalid-note-name error; a lone valid note name is
natural; the second character selects flat, natural or sharp through the
documented accidental table, any other second character being an
invalid-accidental error. -/
theorem deser_option_note_decision_table :
    deser_option_note "" = .ok none ∧
    (∀ c rest, noteNameOfChar c = none →
      deser_option_note (String.mk (c :: rest)) = .error (.InvalidNoteName c)) ∧
    (∀ c, noteNameOfChar c = none ↔
      c ∉ (['A', 'B', 'C', 'D', 'E', 'F', 'G'] : List Char)) ∧
    (∀ c name, noteNameOfChar c = some name →
      deser_option_note (String.mk [c]) = .ok (some (Note.mk name .Natural))) ∧
    (∀ c name c2 rest a, noteNameOfChar c = some name →
      accidentalOfSecond (some c2) = .ok a →
      deser_option_note (String.mk (c :: c2 :: rest)) = .ok (some (Note.mk name a))) ∧
    (∀ c name c2 rest, noteNameOfChar c = some name →
      c2 ∉ (['♭', 'b', '♮', '♯', '#'] : List Char) →
      deser_option_note (String.mk (c :: c2 :: rest)) =
        .error (.InvalidAccidental c2)) ∧
    accidentalOfSecond (some '♭') = .ok .Flat ∧
    accidentalOfSecond (some 'b') = .ok .Flat ∧
    accidentalOfSecond (some '♮') = .ok .Natural ∧
    accidentalOfSecond none = .ok .Natural ∧
    accidentalOfSecond (some '♯') = .ok .Sharp ∧
    accidentalOfSecond (some '#') = .ok .Sharp := by
  refine ⟨rfl, ?_, ?_, ?_, ?_, ?_, rfl, rfl, rfl, rfl, rfl, rfl⟩
  · intro c rest h
    simp [deser_option_note, h]
  · intro c
    constructor
    · intro h hmem
      fin_cases hmem <;> exact absurd h (by decide)
    · intro h
      unfold noteNameOfChar
      split_ifs with h1 h2 h3 h4 h5 h6 h7
      · subst h1; exact absurd (by decide) h
      · subst h2; exact absurd (by decide) h
      · subst h3; exact absurd (by decide) h
      · subst h4; exact absurd (by decide) h
      · subst h5; exact absurd (by decide) h
      · subst h6; exact absurd (by decide) h
      · subst h7; exact absurd (by decide) h
      · rfl
  · intro c name h
    simp [deser_option_note, h, accidentalOfSecond]
  · intro c name c2 rest a h1 h2
    simp [deser_option_note, h1, h2]
  · intro c name c2 rest h1 h2
    simp only [List.mem_cons, List.not_mem_nil, or_false, not_or] at h2
    obtain ⟨n1, n2, n3, n4, n5⟩ := h2
    simp [deser_option_note, h1, accidentalOfSecond, n1, n2, n3, n4, n5]

/-- Witness for C4: the decision-table theorem applied to a leading character
that is not a note name. -/
theorem deser_option_note_decision_table_witness :
    deser_option_note (String.mk ['H']) = .error (.InvalidNoteName 'H') :=
  deser_option_note_decision_table.2.1 'H' [] (by decide)

/-- C5: whenever the first two characters of the pitch field form a valid
note, every longer input decodes successfully to that note: the characters
after the second are ignored. -/
theorem deser_option_note_ignores_trailing :
    ∀ (c c2 : Char) (rest : List Char) (name : NoteName) (a : Accidental),
      noteNameOfChar c = some name →
      accidentalOfSecond (some c2) = .ok a →
      deser_option_note (String.mk (c :: c2 :: rest)) = .ok (some (Note.mk name a)) ∧
      deser_option_note (String.mk (c :: c2 :: rest)) =
        deser_option_note (String.mk [c, c2]) := by
  intro c c2 rest name a h1 h2
  refine ⟨?_, ?_⟩ <;> simp [deser_option_note, h1, h2]

/-- Witness for C5: a four-character pitch field with a valid first pair
decodes to the note of its first two characters. -/
theorem deser_option_note_ignores_trailing_witness :
    deser_option_note (String.mk ['A', '#', 'x', 'y']) =
      .ok (some (Note.mk .A .Sharp)) ∧
    deser_option_note (String.mk ['A', '#', 'x', 'y']) =
      deser_option_note (String.mk ['A', '#']) :=
  deser_option_note_ignores_trailing 'A' '#' ['x', 'y'] .A .Sharp (by decide)
    (by decide)

/-- C6: the free-text list decoder performs a literal semicolon split — the
segments join back to the input and contain no separator — never fails, and
on the concrete examples yields a single empty element for the empty string
and preserves empty middle segments. -/
theorem deser_semicolon_list_split :
    (∀ l : List Char, joinSemi (splitSemiChars l) = l ∧
      ∀ seg ∈ splitSemiChars l, ';' ∉ seg) ∧
    deser_semicolon_list "" = .ok [""] ∧
    deser_semicolon_list ("a;b;c") = .ok ["a", "b", "c"] ∧
    deser_semicolon_list ("a;;b") = .ok ["a", "", "b"] :=
  ⟨fun l => ⟨joinSemi_splitSemiChars l, splitSemiChars_no_semi l⟩,
    by decide, by decide, by decide⟩

/-- Witness for C6: the literal-split theorem applied to a concrete input
with one separator. -/
theorem deser_semicolon_list_split_witness :
    joinSemi (splitSemiChars ['x', ';']) = ['x', ';'] ∧ ';' ∉ (['x'] : List Char) :=
  ⟨(deser_semicolon_list_split.1 ['x', ';']).1,
    (deser_semicolon_list_split.1 ['x', ';']).2 ['x'] (by decide)⟩

/-- C7: every field the number parser accepts decodes to a weight wrapping
exactly the parsed value in pounds (negative values included), and every
present field it rejects is an invalid-number error; concretely 12.5 decodes
to the weight 25/2 and -3 to the weight -3. -/
theorem deser_weight_behaviour :
    (∀ s q, parseFloat s = some q → deser_weight s = .ok (Weight.mk q)) ∧
    (∀ s, parseFloat s = none → deser_weight s = .error .InvalidNumber) ∧
    deser_weight ("12.5") = .ok (Weight.mk (25 / 2)) ∧
    deser_weight ("-3") = .ok (Weight.mk (-3)) ∧
    deser_weight ("abc") = .error .InvalidNumber := by
  refine ⟨?_, ?_, ?_, ?_, by decide⟩
  · intro s q h
    simp [deser_weight, decodeFloat, h, Except.map]
  · intro s h
    simp [deser_weight, decodeFloat, h, Except.map]
  · have h : deser_weight ("12.5") = .ok (Weight.mk (mkRat 25 2)) := by decide
    rw [h]
    norm_num [Rat.mkRat_eq_div]
  · have h : deser_weight ("-3") = .ok (Weight.mk (mkRat (-3) 1)) := by decide
    rw [h]
    norm_num [Rat.mkRat_eq_div]

/-- Witness for C7: the success case of the weight theorem applied to the
concrete parseable field. -/
theorem deser_weight_behaviour_witness :
    deser_weight ("12.5") = .ok (Weight.mk (mkRat 25 2)) :=
  deser_weight_behaviour.1 ("12.5") (mkRat 25 2) (by decide)

/-- C8 counterexample: a record containing the out-of-schema name Bogus but
whose weight field is unparseable fails with the invalid-number error of the
earlier field, not with an unknown-field error, refuting the claim that such
a record fails with an unknown-field error regardless of the validity of the
other fields. -/
theorem assembly_unknown_field_counterexample :
    ("Bogus", "x") ∈ exInvalidAndUnknown ∧
    ("Bogus") ∉ schemaFields ∧
    assembleRing exInvalidAndUnknown = .error .InvalidNumber ∧
    ¬ ∃ n, assembleRing exInvalidAndUnknown = .error (.UnknownField n) := by
  have h : assembleRing exInvalidAndUnknown = .error .InvalidNumber := by decide
  refine ⟨by decide, by decide, h, ?_⟩
  rintro ⟨n, hn⟩
  rw [h] at hn
  exact DecodeError.noConfusion (Except.error.inj hn)

/-- C8 (amended): a record containing a field name outside the schema always
fails assembly, and it fails with the unknown-field error for that name
whenever every entry before it decodes successfully — in particular whenever
all other fields are valid. -/
theorem assembly_unknown_field_fails :
    ∀ (pre post : List (String × String)) (name value : String),
      name ∉ schemaFields →
      (∃ e, assembleRing (pre ++ (name, value) :: post) = .error e) ∧
      (∀ st : PartialRing, runFields {} pre = .ok st →
        assembleRing (pre ++ (name, value) :: post) =
          .error (.UnknownField name)) := by
  intro pre post name value hname
  constructor
  · cases h : runFields ({} : PartialRing) pre with
    | error e =>
      refine ⟨e, ?_⟩
      unfold assembleRing
      rw [runFields_append, h]
    | ok st =>
      refine ⟨.UnknownField name, ?_⟩
      unfold assembleRing
      rw [runFields_append, h]
      simp [runFields, processField_unknown st name value hname]
  · intro st h
    unfold assembleRing
    rw [runFields_append, h]
    simp [runFields, processField_unknown st name value hname]

/-- Witness for C8 (amended): a record consisting of one out-of-schema entry
fails with the unknown-field error. -/
theorem assembly_unknown_field_fails_witness :
    assembleRing ([] ++ ("Bogus", "x") :: []) = .error (.UnknownField ("Bogus")) :=
  (assembly_unknown_field_fails [] [] ("Bogus") ("x") (by decide)).2 {} rfl

/-- C9: the accidental renders as no symbol for natural and as exactly one
glyph for flat and sharp, so a note renders as its name alone when natural
and as its name followed by the single glyph otherwise. -/
theorem note_display_rendering :
    Accidental.fmt .Natural = "" ∧
    Accidental.fmt .Flat = "♭" ∧ (Accidental.fmt .Flat).length = 1 ∧
    Accidental.fmt .Sharp = "♯" ∧ (Accidental.fmt .Sharp).length = 1 ∧
    ∀ name : NoteName,
      Note.fmt (Note.mk name .Natural) = name.fmt ∧
      Note.fmt (Note.mk name .Flat) = name.fmt ++ "♭" ∧
      Note.fmt (Note.mk name .Sharp) = name.fmt ++ "♯" := by
  refine ⟨rfl, rfl, rfl, rfl, rfl, ?_⟩
  intro name
  refine ⟨?_, rfl, rfl⟩
  show name.fmt ++ "" = name.fmt
  exact String.append_empty name.fmt

/-- C10: rendering any note and decoding the rendering recovers the note:
the Display output of every name-accidental pair round-trips through the
pitch decoder. -/
theorem note_display_roundtrip :
    ∀ n : Note, deser_option_note (Note.fmt n) = .ok (some n) := by
  intro n
  obtain ⟨name, a⟩ := n
  cases name <;> cases a <;> decide


end Doves
